import Mathlib

/-!
# Verification of the conversational task-management agent core

Shallow embedding of the agent pipeline of this repository:

* `backend/src/agents/groq_client.py` — tool-call parser
  (`_parse_tool_calls_from_response`, `_extract_response_text`);
* `backend/src/agents/runner.py` — orchestrator (`AgentRunner.run`,
  `_run_agent_with_tools`, `_invoke_tool`);
* `backend/src/agents/id_mapper.py` — `IDMapper`;
* `backend/src/agents/converter.py` — `ThreadItemConverter`;
* `backend/src/repositories/__init__.py` — `TaskRepository`,
  `MessageRepository`;
* `backend/src/mcp_server/registry.py` — `call_tool`;
* the MCP tools `add_task`, `complete_task`, `update_task`
  (`huggingface-backend/src/mcp_server/tools/`), `delete_task`, `list_tasks`
  (`backend/src/mcp_server/tools/`).

Python values carried in tool parameters and JSON are embedded as `PyVal`;
Python strings are embedded as `List Char` where index arithmetic matters
(the parser) and as `String` elsewhere.  Dictionaries are association lists
in insertion order (Python 3.7+ dicts preserve insertion order; the inputs
we reason about never carry duplicate keys).  Database sessions are made
explicit: every repository/tool function receives and returns the store.
-/

set_option maxHeartbeats 1000000
set_option maxRecDepth 100000

namespace Agents

/-- Embedded Python value (the subset that flows through tool parameters
and the JSON tool-call payloads: `None`, booleans, integers, strings,
lists and string-keyed dicts). -/
inductive PyVal where
  | none
  | bool (b : Bool)
  | int (i : Int)
  | str (s : String)
  | list (xs : List PyVal)
  | dict (kvs : List (String × PyVal))

/-- Python truthiness for the embedded values (`bool(v)`). -/
def PyVal.truthy : PyVal → Bool
  | .none => false
  | .bool b => b
  | .int i => i != 0
  | .str s => s ≠ ""
  | .list xs => !xs.isEmpty
  | .dict kvs => !kvs.isEmpty

/-- `isinstance(v, str)`. -/
def PyVal.isStr : PyVal → Bool
  | .str _ => true
  | _ => false

/-- `isinstance(v, int)`.  (In Python `bool` is a subclass of `int`;
the embedding keeps them distinct, and no claim feeds a boolean where
the code checks `isinstance(_, int)`.) -/
def PyVal.isInt : PyVal → Bool
  | .int _ => true
  | _ => false

/-- First binding of key `k` in an association-list dict (the dicts we
reason about have no duplicate keys, so this is Python's `d[k]`). -/
def dictFind (kvs : List (String × PyVal)) (k : String) : Option PyVal :=
  match kvs with
  | [] => Option.none
  | (k', v) :: rest => if k' = k then some v else dictFind rest k

/-- `k in d` for an embedded dict. -/
def dictHasKey (kvs : List (String × PyVal)) (k : String) : Bool :=
  (dictFind kvs k).isSome

/-- Python `d.get(k, default)` lifted to `PyVal` (meaningful on dicts,
which is the only shape the code applies it to). -/
def PyVal.get (v : PyVal) (k : String) (dflt : PyVal) : PyVal :=
  match v with
  | .dict kvs => (dictFind kvs k).getD dflt
  | _ => dflt

/-- A structured-error tool result `{"error": code, "message": msg}`. -/
def errDict (code msg : String) : PyVal :=
  .dict [("error", .str code), ("message", .str msg)]

/-- `"error" in result` — how the runner and registry classify a tool
result as a failure. -/
def resultHasError (r : PyVal) : Bool :=
  match r with
  | .dict kvs => dictHasKey kvs "error"
  | _ => false

/-- The `"error"` entry of a tool result, if any. -/
def resultErrorCode (r : PyVal) : Option PyVal :=
  match r with
  | .dict kvs => dictFind kvs "error"
  | _ => Option.none

end Agents

namespace Agents

/-- The string payload of a `PyVal.str` (only applied after an
`isinstance(_, str)` check has succeeded). -/
def PyVal.asStr : PyVal → String
  | .str s => s
  | _ => ""

/-- The integer payload of a `PyVal.int` (only applied after an
`isinstance(_, int)` check has succeeded). -/
def PyVal.asInt : PyVal → Int
  | .int i => i
  | _ => 0

/-- Python `len(v)` for sized values; `none` stands for the `TypeError`
raised on unsized values. -/
def pyLen : PyVal → Option Nat
  | .str s => some s.length
  | .list xs => some xs.length
  | .dict kvs => some kvs.length
  | _ => Option.none

/-- Python's `v is None` identity test. -/
def PyVal.isNone : PyVal → Bool
  | .none => true
  | _ => false

end Agents

namespace PyStr

/-- Python whitespace for `str.strip()`. -/
def isPySpace (c : Char) : Bool :=
  c = ' ' || c = '\t' || c = '\n' || c = '\r' || c = '\x0b' || c = '\x0c'

/-- `s.strip()` on the character-list embedding of a Python string. -/
def pyStrip (l : List Char) : List Char :=
  ((l.dropWhile isPySpace).reverse.dropWhile isPySpace).reverse

/-- Scanner behind `str.find`: index of the first occurrence of `n` in
`h`, if any. -/
def pyFindAux (n : List Char) : List Char → Option Nat
  | [] => if n.isPrefixOf ([] : List Char) then some 0 else Option.none
  | c :: t =>
    if n.isPrefixOf (c :: t) then some 0
    else (pyFindAux n t).map (· + 1)

/-- Python `h.find(n)`: first index, or `-1`. -/
def pyFind (h n : List Char) : Int :=
  match pyFindAux n h with
  | some i => (i : Int)
  | Option.none => -1

/-- Python `n in h` (substring containment). -/
def pyContains (h n : List Char) : Bool :=
  (pyFindAux n h).isSome

/-- Python slice `h[a:b]` for the non-negative indices the parser
produces. -/
def pySlice (h : List Char) (a b : Int) : List Char :=
  (h.drop a.toNat).take (b.toNat - a.toNat)

end PyStr

namespace PyJson

open Agents

/-- JSON whitespace. -/
def isJsonWs (c : Char) : Bool :=
  c = ' ' || c = '\t' || c = '\n' || c = '\r'

/-- Skip JSON whitespace. -/
def skipWs (l : List Char) : List Char := l.dropWhile isJsonWs

/-- Modelled from Python's `json` library: body of a string literal after
the opening quote.  Returns the decoded content and the input after the
closing quote.  Covers the escapes the tool-call payloads can use; the
parts of the claims that depend on `json.loads` only ever apply it to
concrete inputs inside this fragment, or hypothesise that it fails. -/
def parseStringBody : Nat → List Char → Option (String × List Char)
  | 0, _ => Option.none
  | _ + 1, [] => Option.none
  | fuel + 1, c :: rest =>
    if c = '"' then some ("", rest)
    else if c = '\\' then
      match rest with
      | [] => Option.none
      | e :: rest' =>
        let esc : Option Char :=
          if e = '"' then some '"'
          else if e = '\\' then some '\\'
          else if e = '/' then some '/'
          else if e = 'n' then some '\n'
          else if e = 't' then some '\t'
          else if e = 'r' then some '\r'
          else Option.none
        match esc with
        | some ch =>
          (parseStringBody fuel rest').map (fun p => (String.mk (ch :: p.1.data), p.2))
        | Option.none => Option.none
    else (parseStringBody fuel rest).map (fun p => (String.mk (c :: p.1.data), p.2))

/-- Numeric value of a digit run. -/
def digitsToNat (ds : List Char) : Nat :=
  ds.foldl (fun a c => a * 10 + (c.toNat - '0'.toNat)) 0

mutual

/-- Modelled from Python's `json.loads`: one JSON value (objects, arrays,
strings, integers, `true`/`false`/`null`), returning the remaining input.
Fuel-driven so the recursion is structural. -/
def parseVal : Nat → List Char → Option (PyVal × List Char)
  | 0, _ => Option.none
  | fuel + 1, l =>
    match skipWs l with
    | [] => Option.none
    | c :: rest =>
      if c = '{' then
        match skipWs rest with
        | '}' :: r => some (.dict [], r)
        | _ => (parseMembers fuel rest).map (fun p => (.dict p.1, p.2))
      else if c = '[' then
        match skipWs rest with
        | ']' :: r => some (.list [], r)
        | _ => (parseItems fuel rest).map (fun p => (.list p.1, p.2))
      else if c = '"' then
        (parseStringBody (rest.length + 1) rest).map (fun p => (.str p.1, p.2))
      else if "true".data.isPrefixOf (c :: rest) then
        some (.bool true, (c :: rest).drop 4)
      else if "false".data.isPrefixOf (c :: rest) then
        some (.bool false, (c :: rest).drop 5)
      else if "null".data.isPrefixOf (c :: rest) then
        some (.none, (c :: rest).drop 4)
      else if c = '-' then
        let ds := rest.takeWhile Char.isDigit
        if ds.isEmpty then Option.none
        else some (.int (-(digitsToNat ds : Int)), rest.drop ds.length)
      else if c.isDigit then
        let ds := (c :: rest).takeWhile Char.isDigit
        some (.int (digitsToNat ds : Int), (c :: rest).drop ds.length)
      else Option.none

/-- Members of a JSON object after the opening `{` (non-empty case). -/
def parseMembers : Nat → List Char → Option (List (String × PyVal) × List Char)
  | 0, _ => Option.none
  | fuel + 1, l =>
    match skipWs l with
    | '"' :: rest =>
      match parseStringBody (rest.length + 1) rest with
      | some (key, afterKey) =>
        match skipWs afterKey with
        | ':' :: afterColon =>
          match parseVal fuel afterColon with
          | some (v, afterVal) =>
            match skipWs afterVal with
            | ',' :: afterComma =>
              (parseMembers fuel afterComma).map (fun p => ((key, v) :: p.1, p.2))
            | '}' :: afterBrace => some ([(key, v)], afterBrace)
            | _ => Option.none
          | Option.none => Option.none
        | _ => Option.none
      | Option.none => Option.none
    | _ => Option.none

/-- Items of a JSON array after the opening `[` (non-empty case). -/
def parseItems : Nat → List Char → Option (List PyVal × List Char)
  | 0, _ => Option.none
  | fuel + 1, l =>
    match parseVal fuel l with
    | some (v, afterVal) =>
      match skipWs afterVal with
      | ',' :: afterComma => (parseItems fuel afterComma).map (fun p => (v :: p.1, p.2))
      | ']' :: afterBracket => some ([v], afterBracket)
      | _ => Option.none
    | Option.none => Option.none

end

/-- Modelled from Python's `json.loads` restricted to the grammar above:
parses the whole input or fails (`None` stands for the raised
`JSONDecodeError`). -/
def jsonLoads (l : List Char) : Option PyVal :=
  match parseVal (l.length + 1) l with
  | some (v, rest) => if skipWs rest = [] then some v else Option.none
  | Option.none => Option.none

end PyJson

namespace GroqClient

open Agents PyStr PyJson

/-- The uppercase opening marker `<TOOL_CALLS>`. -/
def OPEN_U : List Char := "<TOOL_CALLS>".data

/-- The uppercase closing marker `</TOOL_CALLS>`. -/
def CLOSE_U : List Char := "</TOOL_CALLS>".data

/-- The lowercase opening marker `<tool_calls>`. -/
def OPEN_L : List Char := "<tool_calls>".data

/-- The lowercase closing marker `</tool_calls>`. -/
def CLOSE_L : List Char := "</tool_calls>".data

/-- The `{"tools": []}` dict the parser degrades to. -/
def emptyTools : PyVal := .dict [("tools", .list [])]

/-- `GroqClient._parse_tool_calls_from_response`
(`backend/src/agents/groq_client.py` lines 306–350).  The `except`
branches for `json.JSONDecodeError` (our `jsonLoads = none`) and for the
`AttributeError` raised by `.get` on a non-dict value both yield
`{"tools": []}`. -/
def parseToolCallsFromResponse (response : List Char) : PyVal :=
  if pyContains response OPEN_U || pyContains response OPEN_L then
    let sm0 := pyFind response OPEN_U
    let em0 := pyFind response CLOSE_U
    let sm := if sm0 = -1 then pyFind response OPEN_L else sm0
    let em := if sm0 = -1 then pyFind response CLOSE_L else em0
    if sm ≥ 0 ∧ em ≥ 0 then
      let start := sm + (if pyContains response OPEN_U then (OPEN_U.length : Int)
                         else (OPEN_L.length : Int))
      let jsonStr := pyStrip (pySlice response start em)
      if jsonStr ≠ [] then
        match jsonLoads jsonStr with
        | some (PyVal.dict kvs) => PyVal.dict kvs
        | some _ => emptyTools
        | Option.none => emptyTools
      else emptyTools
    else emptyTools
  else emptyTools

/-- `GroqClient._extract_response_text`
(`backend/src/agents/groq_client.py` lines 352–378). -/
def extractResponseText (response : List Char) : List Char :=
  let su := pyFind response OPEN_U
  let sl := pyFind response OPEN_L
  let start : Int :=
    if su ≥ 0 ∧ sl ≥ 0 then min su sl
    else if su ≥ 0 then su
    else if sl ≥ 0 then sl
    else -1
  if start ≥ 0 then pyStrip (response.take start.toNat) else response

/-- The `tools_identified` component of `GroqClient.extract_tool_calls`:
`tool_calls.get("tools", [])`. -/
def toolsOf (response : List Char) : PyVal :=
  (parseToolCallsFromResponse response).get "tools" (.list [])

end GroqClient

namespace GroqClient

open PyStr

/-- `OPEN_U` without its leading `<`. -/
def tailU : List Char := "TOOL_CALLS>".data

/-- `OPEN_L` without its leading `<`. -/
def tailL : List Char := "tool_calls>".data

end GroqClient

namespace GroqClient

open Agents PyStr PyJson

/-- The claim's JSON payload `{"tools":[{"name":"add_task","params":{"title":"x"}}]}`. -/
def jsonPayload : List Char :=
  "\x7b\"tools\":[\x7b\"name\":\"add_task\",\"params\":\x7b\"title\":\"x\"\x7d\x7d]\x7d".data

/-- The single expected parsed invocation `{name: add_task, params: {title: x}}`. -/
def addTaskInvocation : PyVal :=
  .dict [("name", .str "add_task"), ("params", .dict [("title", .str "x")])]

end GroqClient

namespace GroqClient

/-- A response whose markers use mixed casing `<Tool_Calls>`. -/
def mixedResponse : List Char :=
  "Sure. <Tool_Calls>\x7b\"tools\":[\x7b\"name\":\"add_task\",\"params\":\x7b\"title\":\"x\"\x7d\x7d]\x7d</Tool_Calls>".data

end GroqClient

namespace Repo

open Agents

/-- A row of the `messages` table (`Message` model). -/
structure Message where
  id : Nat
  user_id : String
  conversation_id : Nat
  role : String
  content : String
  created_at : Nat
  deriving DecidableEq

/-- Stable ascending insertion by `created_at` (an element is placed after
all existing elements with a key `≤` its own). -/
def insertByCreated (m : Message) : List Message → List Message
  | [] => [m]
  | x :: xs =>
    if m.created_at < x.created_at then m :: x :: xs else x :: insertByCreated m xs

/-- Python's stable `sorted(messages, key=lambda m: m.created_at)`; also
models the SQL `ORDER BY created_at` (ascending). -/
def sortByCreated (l : List Message) : List Message :=
  l.foldl (fun acc m => insertByCreated m acc) []

/-- `MessageRepository.list_by_conversation`
(`backend/src/repositories/__init__.py` lines 203–218): filter by
conversation (and by user when a truthy `user_id` is supplied), ascending
by `created_at`, then `offset`/`limit` — with the Python defaults
`limit=100, offset=0`. -/
def MessageRepository.list_by_conversation (msgs : List Message)
    (conversation_id : Nat) (limit : Nat := 100) (offset : Nat := 0)
    (user_id : Option String := Option.none) : List Message :=
  let q := msgs.filter (fun m => m.conversation_id == conversation_id)
  let q :=
    match user_id with
    | some u => if u ≠ "" then q.filter (fun m => m.user_id == u) else q
    | Option.none => q
  ((sortByCreated q).drop offset).take limit

/-- `ThreadItemAdapter.create_message_item` for a string content
(`models_adapter.py` lines 86–100, string branch). -/
def createMessageItem (role content : String) : PyVal :=
  .dict [("type", .str "message"), ("role", .str role),
         ("content", .dict [("type", .str "text"), ("text", .str content)])]

/-- `ThreadItemConverter.messages_to_thread_items`
(`backend/src/agents/converter.py` lines 59–132): sort ascending, apply
the pagination policy (no explicit limit: keep the last 30 only when more
than 100 messages; explicit positive limit: keep the last `limit`), then
convert each message. -/
def messagesToThreadItems (messages : List Message)
    (limit : Option Int := Option.none) : List PyVal :=
  if messages.isEmpty then []
  else
    let sorted := sortByCreated messages
    let kept :=
      match limit with
      | Option.none =>
        if sorted.length > 100 then sorted.drop (sorted.length - 30) else sorted
      | some l =>
        if l > 0 then
          if (sorted.length : Int) > l then sorted.drop (sorted.length - l.toNat)
          else sorted
        else sorted
    kept.map (fun m => createMessageItem m.role m.content)

/-- The history part of `AgentContextBuilder.build_context`
(`backend/src/agents/context.py` lines 105–120): load the conversation's
messages through `MessageRepository.list_by_conversation` with its default
`limit`/`offset` and the user filter, then convert with
`messages_to_thread_items(messages, limit=message_limit)`. -/
def buildContextHistory (msgs : List Message) (conversation_id : Nat)
    (user_id : String) (message_limit : Option Int := Option.none) : List PyVal :=
  messagesToThreadItems
    (MessageRepository.list_by_conversation msgs conversation_id 100 0 (some user_id))
    message_limit

/-- A row of the `tasks` table (`Task` model). -/
structure Task where
  id : Int
  user_id : String
  title : String
  description : Option String
  completed : Bool
  created_at : Nat
  deriving DecidableEq

/-- The task store together with the autoincrement counter of the `id`
column. -/
structure TaskDB where
  tasks : List Task
  nextId : Int
  deriving DecidableEq

/-- `TaskRepository.read` (`backend/src/repositories/__init__.py` lines
38–44): first task matching both the id and the owning user. -/
def TaskRepository.read (db : TaskDB) (user_id : String) (task_id : Int) :
    Option Task :=
  (db.tasks.filter (fun t => t.id == task_id && t.user_id == user_id)).head?

/-- `TaskRepository.create` (lines 20–35).  The id comes from the database
autoincrement, modelled by `nextId`; `created_at` is modelled by the same
monotone counter (insertion order). -/
def TaskRepository.create (db : TaskDB) (user_id title : String)
    (description : Option String) : Task × TaskDB :=
  let t : Task := { id := db.nextId, user_id := user_id, title := title,
                    description := description, completed := false,
                    created_at := db.nextId.toNat }
  (t, { tasks := db.tasks ++ [t], nextId := db.nextId + 1 })

/-- `TaskRepository.update` (lines 46–78): look the row up scoped to the
user, then overwrite exactly the supplied fields. -/
def TaskRepository.update (db : TaskDB) (user_id : String) (task_id : Int)
    (title : Option String := Option.none)
    (description : Option String := Option.none)
    (completed : Option Bool := Option.none) : Option Task × TaskDB :=
  match TaskRepository.read db user_id task_id with
  | Option.none => (Option.none, db)
  | some t =>
    let t' : Task :=
      { t with
        title := title.getD t.title,
        description := (match description with
          | some d => some d
          | Option.none => t.description),
        completed := completed.getD t.completed }
    (some t',
      { db with
        tasks := db.tasks.map fun x =>
          if x.id == task_id && x.user_id == user_id then t' else x })

end Repo

namespace Tools

open Agents Repo

/-- The stored description column for the value the tool hands to the
repository (the claims only exercise string or absent descriptions). -/
def descColumn : PyVal → Option String
  | .str s => some s
  | _ => Option.none

/-- `add_task` (`huggingface-backend/src/mcp_server/tools/add_task.py`
lines 17–91).  `Except.error` stands for an exception escaping the tool
(e.g. `len()` on an unsized truthy description), which the registry
converts to `tool_execution_failed`. -/
def add_task (user_id title description : PyVal) (db : TaskDB) :
    Except String (PyVal × TaskDB) :=
  if !(user_id.truthy && user_id.isStr) then
    .ok (errDict "invalid_user_id" "User ID is required and must be a string", db)
  else if !(title.truthy && title.isStr) then
    .ok (errDict "invalid_title" "Title is required and must be a string", db)
  else if title.asStr.length > 1000 then
    .ok (errDict "title_too_long" "Title must be 1000 characters or less", db)
  else if description.truthy then
    match pyLen description with
    | Option.none => .error "TypeError: object of this type has no len()"
    | some n =>
      if n > 1000 then
        .ok (errDict "description_too_long" "Description must be 1000 characters or less", db)
      else
        let (t, db') := TaskRepository.create db user_id.asStr title.asStr
          (descColumn description)
        .ok (.dict [("task_id", .int t.id), ("status", .str "created"),
          ("title", .str t.title)], db')
  else
    let (t, db') := TaskRepository.create db user_id.asStr title.asStr
      (descColumn description)
    .ok (.dict [("task_id", .int t.id), ("status", .str "created"),
      ("title", .str t.title)], db')

/-- `complete_task` (`huggingface-backend/src/mcp_server/tools/complete_task.py`
lines 15–87). -/
def complete_task (user_id task_id : PyVal) (db : TaskDB) :
    Except String (PyVal × TaskDB) :=
  if !(user_id.truthy && user_id.isStr) then
    .ok (errDict "invalid_user_id" "User ID is required and must be a string", db)
  else if !(task_id.isInt && task_id.asInt > 0) then
    .ok (errDict "invalid_task_id" "Task ID must be a positive integer", db)
  else
    match TaskRepository.read db user_id.asStr task_id.asInt with
    | Option.none =>
      .ok (errDict "task_not_found"
        ("Task " ++ toString task_id.asInt ++ " not found"), db)
    | some _ =>
      match TaskRepository.update db user_id.asStr task_id.asInt
          Option.none Option.none (some true) with
      | (some t', db') =>
        .ok (.dict [("task_id", .int t'.id), ("status", .str "completed"),
          ("title", .str t'.title)], db')
      | (Option.none, db') =>
        .ok (errDict "task_update_failed" "Failed to complete task", db')

/-- `update_task` (`huggingface-backend/src/mcp_server/tools/update_task.py`
lines 17–152). -/
def update_task (user_id task_id title description : PyVal) (db : TaskDB) :
    Except String (PyVal × TaskDB) :=
  if !(user_id.truthy && user_id.isStr) then
    .ok (errDict "invalid_user_id" "User ID is required and must be a string", db)
  else if !(task_id.isInt && task_id.asInt > 0) then
    .ok (errDict "invalid_task_id" "Task ID must be a positive integer", db)
  else if title.isNone && description.isNone then
    .ok (errDict "no_updates_provided"
      "At least one of title or description must be provided", db)
  else if !title.isNone && !title.isStr then
    .ok (errDict "invalid_title" "Title must be a string", db)
  else if !title.isNone && title.asStr.length > 1000 then
    .ok (errDict "title_too_long" "Title must be 1000 characters or less", db)
  else if !description.isNone && !description.isStr then
    .ok (errDict "invalid_description" "Description must be a string", db)
  else if !description.isNone && description.asStr.length > 1000 then
    .ok (errDict "description_too_long" "Description must be 1000 characters or less", db)
  else
    match TaskRepository.read db user_id.asStr task_id.asInt with
    | Option.none =>
      .ok (errDict "task_not_found"
        ("Task " ++ toString task_id.asInt ++ " not found"), db)
    | some _ =>
      match TaskRepository.update db user_id.asStr task_id.asInt
          (if title.isNone then Option.none else some title.asStr)
          (if description.isNone then Option.none else some description.asStr)
          Option.none with
      | (some t', db') =>
        .ok (.dict [("task_id", .int t'.id), ("status", .str "updated"),
          ("title", .str t'.title)], db')
      | (Option.none, db') =>
        .ok (errDict "task_update_failed" "Failed to update task", db')

/-- The by-name lookup of `delete_task`: exact title match first, then
case-insensitive (`backend/src/mcp_server/tools/delete_task.py` lines
80–110). -/
def findTaskByName (db : TaskDB) (user_id name : String) : Option Task :=
  match (db.tasks.filter (fun t => t.user_id == user_id && t.title == name)).head? with
  | some t => some t
  | Option.none =>
    (db.tasks.filter
      (fun t => t.user_id == user_id && t.title.toLower == name.toLower)).head?

/-- `delete_task` (`backend/src/mcp_server/tools/delete_task.py` lines
15–177).  The deletion is the raw SQL `DELETE WHERE id AND user_id`
statement of lines 123–130. -/
def delete_task (user_id task_id task_name : PyVal) (db : TaskDB) :
    Except String (PyVal × TaskDB) :=
  if !(user_id.truthy && user_id.isStr) then
    .ok (errDict "invalid_user_id" "User ID is required and must be a string", db)
  else if !task_id.truthy && !task_name.truthy then
    .ok (errDict "missing_params" "Either task_id or task_name must be provided", db)
  else if task_id.truthy && !(task_id.isInt && task_id.asInt > 0) then
    .ok (errDict "invalid_task_id" "Task ID must be a positive integer", db)
  else if task_name.truthy && !task_name.isStr then
    .ok (errDict "invalid_task_name" "Task name must be a string", db)
  else
    let found : Option Task :=
      if task_id.truthy then TaskRepository.read db user_id.asStr task_id.asInt
      else findTaskByName db user_id.asStr task_name.asStr
    match found with
    | Option.none =>
      if task_id.truthy then
        .ok (errDict "task_not_found"
          ("Task " ++ toString task_id.asInt ++ " not found"), db)
      else
        .ok (errDict "task_not_found"
          ("Task with name '" ++ task_name.asStr ++ "' not found"), db)
    | some t =>
      let remaining := db.tasks.filter
        (fun x => !(x.id == t.id && x.user_id == user_id.asStr))
      let rowcount := db.tasks.length - remaining.length
      if rowcount == 0 then
        .ok (errDict "task_deletion_failed" "Failed to delete task", db)
      else
        .ok (.dict [("task_id", .int t.id), ("status", .str "deleted"),
          ("title", .str t.title)], { db with tasks := remaining })

/-- Stable descending insertion by `created_at`. -/
def insertByCreatedDesc (t : Task) : List Task → List Task
  | [] => [t]
  | x :: xs =>
    if t.created_at > x.created_at then t :: x :: xs else x :: insertByCreatedDesc t xs

/-- `TaskRepository.list_by_user` ordering (`ORDER BY created_at DESC`). -/
def sortByCreatedDesc (l : List Task) : List Task :=
  l.foldl (fun acc t => insertByCreatedDesc t acc) []

/-- `list_tasks` (`backend/src/mcp_server/tools/list_tasks.py` lines
17–93).  `created_at` is reported as the embedded timestamp (the Python
code renders it as an ISO string). -/
def list_tasks (user_id status : PyVal) (db : TaskDB) :
    Except String (PyVal × TaskDB) :=
  if !(user_id.truthy && user_id.isStr) then
    .ok (errDict "invalid_user_id" "User ID is required and must be a string", db)
  else if !(status.isStr && (status.asStr == "all" || status.asStr == "pending"
      || status.asStr == "completed")) then
    .ok (errDict "invalid_status" "Status must be one of: all, pending, completed", db)
  else
    let tasks := db.tasks.filter (fun t => t.user_id == user_id.asStr)
    let tasks :=
      if status.asStr == "pending" then tasks.filter (fun t => !t.completed)
      else if status.asStr == "completed" then tasks.filter (fun t => t.completed)
      else tasks
    let tasks := sortByCreatedDesc tasks
    let taskList := tasks.map fun t =>
      PyVal.dict [("id", .int t.id), ("title", .str t.title),
        ("description", match t.description with
          | some d => .str d
          | Option.none => PyVal.none),
        ("completed", .bool t.completed), ("created_at", .int (t.created_at : Int))]
    .ok (.dict [("tasks", .list taskList), ("count", .int (taskList.length : Int)),
      ("status", .str status.asStr)], db)

end Tools

namespace MCPRegistry

open Agents Repo Tools

/-- The names in `TOOL_REGISTRY` (`backend/src/mcp_server/registry.py`
lines 24–30). -/
def registryNames : List String :=
  ["add_task", "list_tasks", "complete_task", "delete_task", "update_task"]

/-- Keyword-argument lookup with a default (Python binds `**tool_input`
to the tool's named parameters). -/
def kwarg (input : List (String × PyVal)) (k : String) (dflt : PyVal) : PyVal :=
  (dictFind input k).getD dflt

/-- Whether `**input` binds against a signature with the given required
and optional parameter names; a failure is Python's `TypeError`. -/
def kwargsOk (input : List (String × PyVal)) (required optional : List String) : Bool :=
  required.all (fun k => dictHasKey input k)
    && input.all (fun kv => (required ++ optional).contains kv.1)

/-- `call_tool` (`backend/src/mcp_server/registry.py` lines 175–201):
unknown names give `tool_not_found`; any exception escaping a tool call
(including a `TypeError` from the `**`-binding) is converted to
`tool_execution_failed`. -/
def call_tool (tool_name : String) (tool_input : List (String × PyVal))
    (db : TaskDB) : PyVal × TaskDB :=
  if !registryNames.contains tool_name then
    (errDict "tool_not_found" ("Tool '" ++ tool_name ++ "' not found"), db)
  else
    let run : Except String (PyVal × TaskDB) :=
      if tool_name == "add_task" then
        if kwargsOk tool_input ["user_id", "title"] ["description"] then
          add_task (kwarg tool_input "user_id" .none) (kwarg tool_input "title" .none)
            (kwarg tool_input "description" .none) db
        else .error "TypeError: bad arguments for add_task"
      else if tool_name == "list_tasks" then
        if kwargsOk tool_input ["user_id"] ["status"] then
          list_tasks (kwarg tool_input "user_id" .none)
            (kwarg tool_input "status" (.str "all")) db
        else .error "TypeError: bad arguments for list_tasks"
      else if tool_name == "complete_task" then
        if kwargsOk tool_input ["user_id", "task_id"] [] then
          complete_task (kwarg tool_input "user_id" .none)
            (kwarg tool_input "task_id" .none) db
        else .error "TypeError: bad arguments for complete_task"
      else if tool_name == "delete_task" then
        if kwargsOk tool_input ["user_id"] ["task_id", "task_name"] then
          delete_task (kwarg tool_input "user_id" .none)
            (kwarg tool_input "task_id" .none) (kwarg tool_input "task_name" .none) db
        else .error "TypeError: bad arguments for delete_task"
      else
        if kwargsOk tool_input ["user_id", "task_id"] ["title", "description"] then
          update_task (kwarg tool_input "user_id" .none)
            (kwarg tool_input "task_id" .none) (kwarg tool_input "title" .none)
            (kwarg tool_input "description" .none) db
        else .error "TypeError: bad arguments for update_task"
    match run with
    | .ok res => res
    | .error _ =>
      (errDict "tool_execution_failed"
        ("Failed to execute tool '" ++ tool_name ++ "'"), db)

end MCPRegistry

namespace IdMapper

/-- `IDMapper` (`backend/src/agents/id_mapper.py` lines 13–138): the
forward map is keyed on `provider_id` alone; the audit map records
`provider_name_provider_id`. -/
structure IDMapper where
  provider_id_map : List (String × Int)
  audit_map : List (Int × String)
  id_counter : Int

/-- A freshly constructed mapper (`__init__`). -/
def IDMapper.fresh : IDMapper := ⟨[], [], 0⟩

/-- Dict lookup for the forward map. -/
def lookupProvider (m : List (String × Int)) (k : String) : Option Int :=
  match m with
  | [] => Option.none
  | (k', v) :: rest => if k' == k then some v else lookupProvider rest k

/-- `IDMapper.map_provider_id` (lines 25–64): return the existing mapping
for this `provider_id` if present — the `provider_name` plays no part in
the lookup — otherwise assign `1000 + counter`. -/
def IDMapper.map_provider_id (m : IDMapper) (provider_id : String)
    (provider_name : String := "unknown") : Int × IDMapper :=
  match lookupProvider m.provider_id_map provider_id with
  | some v => (v, m)
  | Option.none =>
    let c := m.id_counter + 1
    let uid := 1000 + c
    (uid,
      { provider_id_map := m.provider_id_map ++ [(provider_id, uid)],
        audit_map := m.audit_map ++ [(uid, provider_name ++ "_" ++ provider_id)],
        id_counter := c })

/-- `IDMapper.get_original_id` (lines 66–76). -/
def IDMapper.get_original_id (m : IDMapper) (unique_id : Int) : Option String :=
  match m.audit_map.find? (fun kv => kv.1 == unique_id) with
  | some kv => some kv.2
  | Option.none => Option.none

end IdMapper

namespace Runner

open Agents Repo Tools MCPRegistry

/-- The `user_id` injection of `AgentRunner._invoke_tool` (runner.py lines
434–436): only when the key is absent; a model-supplied value is kept. -/
def injectUserId (user_id : String) (tool_input : List (String × PyVal)) :
    List (String × PyVal) :=
  if dictHasKey tool_input "user_id" then tool_input
  else tool_input ++ [("user_id", .str user_id)]

/-- `AgentRunner._invoke_tool` (runner.py lines 414–468): inject the
authenticated user id into the params when absent, call the registry, and
convert a raise into a `tool_invocation_failed` error result.  A non-dict
`tool_input` makes the `in`/assignment raise (modelled directly as the
error result); an unhashable non-string `tool_name` raises at the registry
membership test (list/dict case), while other non-strings simply fail the
lookup (`tool_not_found`). -/
def invokeTool (user_id : String) (tool_name : PyVal) (tool_input : PyVal)
    (db : TaskDB) : PyVal × TaskDB :=
  match tool_input with
  | .dict kvs =>
    match tool_name with
    | .str n => call_tool n (injectUserId user_id kvs) db
    | .list _ =>
      (.dict [("error", .str "tool_invocation_failed"),
        ("message", .str "Failed to invoke tool"),
        ("details", .str "TypeError: unhashable type")], db)
    | .dict _ =>
      (.dict [("error", .str "tool_invocation_failed"),
        ("message", .str "Failed to invoke tool"),
        ("details", .str "TypeError: unhashable type")], db)
    | _ => (errDict "tool_not_found" "Tool not found", db)
  | _ =>
    (.dict [("error", .str "tool_invocation_failed"),
      ("message", .str "Failed to invoke tool"),
      ("details", .str "TypeError: params not a mapping")], db)

/-- The params dict as mutated by `_invoke_tool` (the same object the
loop then records in `tool_results` and `tool_calls_list`). -/
def recordedParams (user_id : String) (tool_params : PyVal) : PyVal :=
  match tool_params with
  | .dict kvs => .dict (injectUserId user_id kvs)
  | v => v

/-- The dispatch loop of `AgentRunner._run_agent_with_tools` (runner.py
lines 307–358): sequential, in model order; a spec without a truthy name
is skipped (`continue`); every invoked spec appends one entry to
`tool_results` and one to `tool_calls_list`, whether or not the result is
an error.  Returns `(tool_results, tool_calls_list, store)`.  (Specs are
dicts here; a non-dict spec would abort the whole loop in Python via the
re-raise in its `except` handler, a path no claim exercises.) -/
def dispatchTools (user_id : String) (db : TaskDB) :
    List PyVal → List PyVal × List PyVal × TaskDB
  | [] => ([], [], db)
  | spec :: rest =>
    let tool_name := spec.get "name" .none
    if !tool_name.truthy then dispatchTools user_id db rest
    else
      let tool_params := spec.get "params" (.dict [])
      let res := invokeTool user_id tool_name tool_params db
      let recorded := recordedParams user_id tool_params
      let outcome : PyVal := .dict [("tool", tool_name), ("params", recorded),
        ("result", res.1), ("success", .bool (!resultHasError res.1))]
      let callEntry : PyVal := .dict [("tool", tool_name), ("params", recorded)]
      let next := dispatchTools user_id res.2 rest
      (outcome :: next.1, callEntry :: next.2.1, next.2.2)

/-- `AgentResponse` (runner.py lines 23–43); `success` is `error is None`. -/
structure AgentResponse where
  response : String
  tool_calls : List PyVal
  error : Option String

/-- `AgentResponse.success`. -/
def AgentResponse.success (r : AgentResponse) : Bool := r.error.isNone

/-- `AgentConfig.TIMEOUT_SECONDS = int(os.getenv("AGENT_TIMEOUT", "30"))`
(`backend/src/agents/config.py` line 113), the environment modelled as an
optional integer override. -/
def TIMEOUT_SECONDS (envAgentTimeout : Option Int := Option.none) : Int :=
  envAgentTimeout.getD 30

/-- How the awaited `_execute_agent_loop` ends, as observed by `run`:
normal completion carrying the final text and `tool_calls_made`; the
`asyncio.TimeoutError` of the `wait_for` wrapper; or an exception.  The
`store` component carries the task store as left behind by whatever tool
calls had committed before the end — the timeout performs no rollback. -/
inductive LoopOutcome where
  | completed (responseText : String) (toolCalls : List PyVal) (store : TaskDB)
  | timedOut (toolCallsSoFar : List PyVal) (store : TaskDB)
  | raised (message : String) (toolCallsSoFar : List PyVal) (store : TaskDB)

/-- `AgentRunner.run` (runner.py lines 83–174): initialization failure,
the timeout branch, the generic exception branch, and normal completion.
The loop is awaited exactly once — there is no retry of any branch. -/
def run (db0 : TaskDB) (initOk : Bool) (timeout : Int) (outcome : LoopOutcome) :
    AgentResponse × TaskDB :=
  if !initOk then
    (⟨"I'm having trouble starting. Please try again.", [],
      some "Failed to initialize Groq agent"⟩, db0)
  else
    match outcome with
    | .completed text calls store => (⟨text, calls, Option.none⟩, store)
    | .timedOut _ store =>
      (⟨"I'm taking too long to think. Please try again.", [],
        some ("Agent execution timed out after " ++ toString timeout ++ "s")⟩, store)
    | .raised msg _ store =>
      (⟨"An unexpected error occurred. Please try again.", [], some msg⟩, store)

end Runner

section SupportDefs1

open Agents Repo

/-- A conversation with 150 stored turns (ids 1–150, strictly increasing
`created_at`, alternating roles, all owned by user `u1` in
conversation 7). -/
def msgs150 : List Message :=
  (List.range 150).map fun i =>
    { id := i + 1, user_id := "u1", conversation_id := 7,
      role := if i % 2 == 0 then "user" else "assistant",
      content := "m" ++ toString i, created_at := i }

end SupportDefs1

section SupportDefs2

open Agents Repo Tools

/-- A one-task store owned by `alice` for the C2 witness. -/
def aliceTask : Repo.Task :=
  { id := 1, user_id := "alice", title := "Buy milk",
    description := Option.none, completed := false, created_at := 0 }

/-- The witness store. -/
def aliceDB : TaskDB := ⟨[aliceTask], 2⟩

/-- First parsed invocation of the C5 scenario: `add_task` with an empty
title, which fails validation (`invalid_title`). -/
def specFailing : PyVal :=
  .dict [("name", .str "add_task"), ("params", .dict [("title", .str "")])]

/-- Second parsed invocation of the C5 scenario: `add_task` for
`buy milk`, which succeeds. -/
def specSucceeding : PyVal :=
  .dict [("name", .str "add_task"), ("params", .dict [("title", .str "buy milk")])]

/-- A title of exactly 1000 characters. -/
def title1000 : String := String.mk (List.replicate 1000 'a')

/-- A title of 1001 characters. -/
def title1001 : String := String.mk (List.replicate 1001 'a')

end SupportDefs2

namespace PyStr

theorem isPrefixOf_append_self (l t : List Char) : l.isPrefixOf (l ++ t) = true := by
  induction l with
  | nil => simp [List.isPrefixOf]
  | cons c cs ih => simp [List.isPrefixOf, ih]

theorem isPrefixOf_false_of_head_ne {c d : Char} (tn tl : List Char) (h : c ≠ d) :
    (c :: tn).isPrefixOf (d :: tl) = false := by
  simp [List.isPrefixOf, h]

theorem isPrefixOf_false_of_second_ne {c a b : Char} (tn tl : List Char) (h : a ≠ b) :
    (c :: a :: tn).isPrefixOf (c :: b :: tl) = false := by
  simp [List.isPrefixOf, h]

theorem pyFindAux_nil_none (c : Char) (tn : List Char) :
    pyFindAux (c :: tn) [] = Option.none := by
  simp [pyFindAux, List.isPrefixOf]

theorem pyFindAux_cons_false (n : List Char) (c : Char) (t : List Char)
    (h : n.isPrefixOf (c :: t) = false) :
    pyFindAux n (c :: t) = (pyFindAux n t).map (· + 1) := by
  simp [pyFindAux, h]

theorem pyFindAux_self (c : Char) (tn post : List Char) :
    pyFindAux (c :: tn) ((c :: tn) ++ post) = some 0 := by
  have h : (c :: tn).isPrefixOf (c :: (tn ++ post)) = true :=
    isPrefixOf_append_self (c :: tn) post
  simp [pyFindAux, h]

theorem pyFindAux_none_of_headfree (c : Char) (tn : List Char) {l : List Char}
    (h : c ∉ l) :
    pyFindAux (c :: tn) l = Option.none := by
  induction l with
  | nil => exact pyFindAux_nil_none c tn
  | cons d t ih =>
    have hcd : c ≠ d := fun hEq => h (hEq ▸ List.mem_cons_self d t)
    rw [pyFindAux_cons_false _ _ _ (isPrefixOf_false_of_head_ne tn t hcd)]
    rw [ih (fun hm => h (List.mem_cons_of_mem d hm))]
    rfl

theorem pyFindAux_append_headfree (c : Char) (tn : List Char) {p : List Char}
    (post : List Char) (hp : c ∉ p) :
    pyFindAux (c :: tn) (p ++ post) = (pyFindAux (c :: tn) post).map (· + p.length) := by
  induction p with
  | nil =>
    cases h : pyFindAux (c :: tn) post <;> simp [h]
  | cons d t ih =>
    have hcd : c ≠ d := fun hEq => hp (hEq ▸ List.mem_cons_self d t)
    have hstep := pyFindAux_cons_false (c :: tn) d (t ++ post)
      (isPrefixOf_false_of_head_ne tn (t ++ post) hcd)
    rw [List.cons_append, hstep, ih (fun hm => hp (List.mem_cons_of_mem d hm))]
    cases h : pyFindAux (c :: tn) post <;> simp [h] <;> omega

end PyStr

namespace PyStr

theorem pyFindAux_chunk (c : Char) (tn : List Char) (d : Char) (t post : List Char)
    (hne : (c :: tn).isPrefixOf (d :: (t ++ post)) = false) (ht : c ∉ t) :
    pyFindAux (c :: tn) ((d :: t) ++ post)
      = (pyFindAux (c :: tn) post).map (· + (t.length + 1)) := by
  rw [List.cons_append, pyFindAux_cons_false _ _ _ hne,
      pyFindAux_append_headfree c tn post ht]
  cases h : pyFindAux (c :: tn) post <;> simp [h] <;> omega

end PyStr

namespace GroqClient

open PyStr

theorem openU_cons : OPEN_U = '<' :: tailU := rfl

theorem closeU_cons : CLOSE_U = '<' :: ('/' :: tailU) := rfl

theorem openL_cons : OPEN_L = '<' :: tailL := rfl

theorem closeL_cons : CLOSE_L = '<' :: ('/' :: tailL) := rfl

theorem tailU_cons : tailU = 'T' :: "OOL_CALLS>".data := rfl

theorem tailL_cons : tailL = 't' :: "ool_calls>".data := rfl

theorem lt_not_mem_tailU : '<' ∉ tailU := by decide

theorem lt_not_mem_tailL : '<' ∉ tailL := by decide

theorem lt_not_mem_slashU : '<' ∉ '/' :: tailU := by decide

theorem lt_not_mem_slashL : '<' ∉ '/' :: tailL := by decide

theorem closeU_not_at_openU (X : List Char) :
    ('<' :: ('/' :: tailU)).isPrefixOf ('<' :: (tailU ++ X)) = false := by
  rw [tailU_cons, List.cons_append]
  exact isPrefixOf_false_of_second_ne _ _ (by decide)

theorem closeL_not_at_openL (X : List Char) :
    ('<' :: ('/' :: tailL)).isPrefixOf ('<' :: (tailL ++ X)) = false := by
  rw [tailL_cons, List.cons_append]
  exact isPrefixOf_false_of_second_ne _ _ (by decide)

theorem openL_not_at_openU (X : List Char) :
    ('<' :: tailL).isPrefixOf ('<' :: (tailU ++ X)) = false := by
  rw [tailU_cons, tailL_cons, List.cons_append]
  exact isPrefixOf_false_of_second_ne _ _ (by decide)

theorem openL_not_at_closeU (X : List Char) :
    ('<' :: tailL).isPrefixOf ('<' :: (('/' :: tailU) ++ X)) = false := by
  rw [tailL_cons, List.cons_append]
  exact isPrefixOf_false_of_second_ne _ _ (by decide)

theorem openU_not_at_openL (X : List Char) :
    ('<' :: tailU).isPrefixOf ('<' :: (tailL ++ X)) = false := by
  rw [tailU_cons, tailL_cons, List.cons_append]
  exact isPrefixOf_false_of_second_ne _ _ (by decide)

theorem openU_not_at_closeL (X : List Char) :
    ('<' :: tailU).isPrefixOf ('<' :: (('/' :: tailL) ++ X)) = false := by
  rw [tailU_cons, List.cons_append]
  exact isPrefixOf_false_of_second_ne _ _ (by decide)

end GroqClient

namespace GroqClient

open PyStr

theorem tailU_len : tailU.length = 11 := rfl

theorem tailL_len : tailL.length = 11 := rfl

/-- Location of the first uppercase opening marker in
`prefix ++ "<TOOL_CALLS>" ++ rest` when the prefix has no `<`. -/
theorem findAux_openU_at (p X : List Char) (hp : '<' ∉ p) :
    pyFindAux OPEN_U (p ++ (OPEN_U ++ X)) = some p.length := by
  rw [openU_cons, pyFindAux_append_headfree '<' tailU _ hp, pyFindAux_self]
  simp

/-- Location of the first lowercase opening marker in
`prefix ++ "<tool_calls>" ++ rest` when the prefix has no `<`. -/
theorem findAux_openL_at (p X : List Char) (hp : '<' ∉ p) :
    pyFindAux OPEN_L (p ++ (OPEN_L ++ X)) = some p.length := by
  rw [openL_cons, pyFindAux_append_headfree '<' tailL _ hp, pyFindAux_self]
  simp

/-- Location of the first uppercase closing marker in an
uppercase-delimited response. -/
theorem findAux_closeU_upper (p j s : List Char) (hp : '<' ∉ p) (hj : '<' ∉ j) :
    pyFindAux CLOSE_U (p ++ (OPEN_U ++ (j ++ (CLOSE_U ++ s))))
      = some (p.length + 12 + j.length) := by
  rw [closeU_cons, pyFindAux_append_headfree '<' ('/' :: tailU) _ hp, openU_cons,
      pyFindAux_chunk '<' ('/' :: tailU) '<' tailU _ (closeU_not_at_openU _) lt_not_mem_tailU,
      pyFindAux_append_headfree '<' ('/' :: tailU) _ hj, pyFindAux_self]
  simp [tailU_len]
  omega

/-- The lowercase opening marker does not occur in an uppercase-delimited
response whose prefix, payload and suffix have no `<`. -/
theorem findAux_openL_upper (p j s : List Char) (hp : '<' ∉ p) (hj : '<' ∉ j)
    (hs : '<' ∉ s) :
    pyFindAux OPEN_L (p ++ (OPEN_U ++ (j ++ (CLOSE_U ++ s)))) = Option.none := by
  rw [openL_cons, pyFindAux_append_headfree '<' tailL _ hp, openU_cons,
      pyFindAux_chunk '<' tailL '<' tailU _ (openL_not_at_openU _) lt_not_mem_tailU,
      pyFindAux_append_headfree '<' tailL _ hj, closeU_cons,
      pyFindAux_chunk '<' tailL '<' ('/' :: tailU) _ (openL_not_at_closeU _) lt_not_mem_slashU,
      pyFindAux_none_of_headfree '<' tailL hs]
  rfl

/-- The uppercase opening marker does not occur in a lowercase-delimited
response whose prefix, payload and suffix have no `<`. -/
theorem findAux_openU_lower (p j s : List Char) (hp : '<' ∉ p) (hj : '<' ∉ j)
    (hs : '<' ∉ s) :
    pyFindAux OPEN_U (p ++ (OPEN_L ++ (j ++ (CLOSE_L ++ s)))) = Option.none := by
  rw [openU_cons, pyFindAux_append_headfree '<' tailU _ hp, openL_cons,
      pyFindAux_chunk '<' tailU '<' tailL _ (openU_not_at_openL _) lt_not_mem_tailL,
      pyFindAux_append_headfree '<' tailU _ hj, closeL_cons,
      pyFindAux_chunk '<' tailU '<' ('/' :: tailL) _ (openU_not_at_closeL _) lt_not_mem_slashL,
      pyFindAux_none_of_headfree '<' tailU hs]
  rfl

/-- Location of the first lowercase closing marker in a
lowercase-delimited response. -/
theorem findAux_closeL_lower (p j s : List Char) (hp : '<' ∉ p) (hj : '<' ∉ j) :
    pyFindAux CLOSE_L (p ++ (OPEN_L ++ (j ++ (CLOSE_L ++ s))))
      = some (p.length + 12 + j.length) := by
  rw [closeL_cons, pyFindAux_append_headfree '<' ('/' :: tailL) _ hp, openL_cons,
      pyFindAux_chunk '<' ('/' :: tailL) '<' tailL _ (closeL_not_at_openL _) lt_not_mem_tailL,
      pyFindAux_append_headfree '<' ('/' :: tailL) _ hj, pyFindAux_self]
  simp [tailL_len]
  omega

end GroqClient

namespace GroqClient

open Agents PyStr PyJson

theorem openU_len_int : (OPEN_U.length : Int) = 12 := rfl

theorem openL_len_int : (OPEN_L.length : Int) = 12 := rfl

/-- Slicing out the payload between the markers. -/
theorem slice_payload (p j rest mk : List Char) (hmk : mk.length = 12) :
    pySlice (p ++ (mk ++ (j ++ rest))) ((p.length : Int) + 12)
      ((p.length + 12 + j.length : Nat) : Int) = j := by
  unfold pySlice
  have ha : ((p.length : Int) + 12).toNat = p.length + 12 := by omega
  have hb : (((p.length + 12 + j.length : Nat) : Int)).toNat = p.length + 12 + j.length := by
    omega
  rw [ha, hb]
  have hR : p ++ (mk ++ (j ++ rest)) = (p ++ mk) ++ (j ++ rest) :=
    (List.append_assoc p mk (j ++ rest)).symm
  rw [hR, List.drop_left' (by simp [List.length_append, hmk])]
  have harith : p.length + 12 + j.length - (p.length + 12) = j.length := by omega
  rw [harith, List.take_left]

/-- What `_parse_tool_calls_from_response` computes on a response whose
markers are the exact uppercase spelling, with a `<`-free prefix and
payload. -/
theorem parse_upper_shape (p j s : List Char) (hp : '<' ∉ p) (hj : '<' ∉ j) :
    parseToolCallsFromResponse (p ++ (OPEN_U ++ (j ++ (CLOSE_U ++ s)))) =
      (if pyStrip j ≠ [] then
        match jsonLoads (pyStrip j) with
        | some (PyVal.dict kvs) => PyVal.dict kvs
        | some _ => emptyTools
        | Option.none => emptyTools
      else emptyTools) := by
  have hcu : pyContains (p ++ (OPEN_U ++ (j ++ (CLOSE_U ++ s)))) OPEN_U = true := by
    rw [pyContains, findAux_openU_at _ _ hp]; rfl
  have hfU : pyFind (p ++ (OPEN_U ++ (j ++ (CLOSE_U ++ s)))) OPEN_U = (p.length : Int) := by
    rw [pyFind, findAux_openU_at _ _ hp]
  have hfCU : pyFind (p ++ (OPEN_U ++ (j ++ (CLOSE_U ++ s)))) CLOSE_U
      = ((p.length + 12 + j.length : Nat) : Int) := by
    rw [pyFind, findAux_closeU_upper _ _ _ hp hj]
  have hne : (((p.length : Int)) = -1) = False := eq_false (by omega)
  have hge : (((p.length : Int)) ≥ 0 ∧ ((p.length + 12 + j.length : Nat) : Int) ≥ 0) = True :=
    eq_true ⟨by omega, by omega⟩
  simp only [parseToolCallsFromResponse, hcu, hfU, hfCU, Bool.true_or, if_true, hne,
    if_false, hge, openU_len_int, slice_payload p j (CLOSE_U ++ s) OPEN_U rfl]

/-- What `_parse_tool_calls_from_response` computes on a response whose
markers are the exact lowercase spelling, with `<`-free prefix, payload
and suffix. -/
theorem parse_lower_shape (p j s : List Char) (hp : '<' ∉ p) (hj : '<' ∉ j)
    (hs : '<' ∉ s) :
    parseToolCallsFromResponse (p ++ (OPEN_L ++ (j ++ (CLOSE_L ++ s)))) =
      (if pyStrip j ≠ [] then
        match jsonLoads (pyStrip j) with
        | some (PyVal.dict kvs) => PyVal.dict kvs
        | some _ => emptyTools
        | Option.none => emptyTools
      else emptyTools) := by
  have hcu : pyContains (p ++ (OPEN_L ++ (j ++ (CLOSE_L ++ s)))) OPEN_U = false := by
    rw [pyContains, findAux_openU_lower _ _ _ hp hj hs]; rfl
  have hcl : pyContains (p ++ (OPEN_L ++ (j ++ (CLOSE_L ++ s)))) OPEN_L = true := by
    rw [pyContains, findAux_openL_at _ _ hp]; rfl
  have hfU : pyFind (p ++ (OPEN_L ++ (j ++ (CLOSE_L ++ s)))) OPEN_U = -1 := by
    rw [pyFind, findAux_openU_lower _ _ _ hp hj hs]
  have hfL : pyFind (p ++ (OPEN_L ++ (j ++ (CLOSE_L ++ s)))) OPEN_L = (p.length : Int) := by
    rw [pyFind, findAux_openL_at _ _ hp]
  have hfCL : pyFind (p ++ (OPEN_L ++ (j ++ (CLOSE_L ++ s)))) CLOSE_L
      = ((p.length + 12 + j.length : Nat) : Int) := by
    rw [pyFind, findAux_closeL_lower _ _ _ hp hj]
  have hge : (((p.length : Int)) ≥ 0 ∧ ((p.length + 12 + j.length : Nat) : Int) ≥ 0) = True :=
    eq_true ⟨by omega, by omega⟩
  have hft : (false = true) = False := by simp
  simp only [parseToolCallsFromResponse, hcu, hcl, hfU, hfL, hfCL, Bool.false_or, if_true,
    if_false, hge, hft, openL_len_int, slice_payload p j (CLOSE_L ++ s) OPEN_L rfl]

/-- What `_extract_response_text` computes on an uppercase-delimited
response. -/
theorem extract_upper_shape (p j s : List Char) (hp : '<' ∉ p) (hj : '<' ∉ j)
    (hs : '<' ∉ s) :
    extractResponseText (p ++ (OPEN_U ++ (j ++ (CLOSE_U ++ s)))) = pyStrip p := by
  have hfU : pyFind (p ++ (OPEN_U ++ (j ++ (CLOSE_U ++ s)))) OPEN_U = (p.length : Int) := by
    rw [pyFind, findAux_openU_at _ _ hp]
  have hfL : pyFind (p ++ (OPEN_U ++ (j ++ (CLOSE_U ++ s)))) OPEN_L = -1 := by
    rw [pyFind, findAux_openL_upper _ _ _ hp hj hs]
  have h1 : ¬(((p.length : Int)) ≥ 0 ∧ (-1 : Int) ≥ 0) := by omega
  have h2 : ((p.length : Int)) ≥ 0 := by omega
  have ht : ((p.length : Int)).toNat = p.length := by omega
  simp only [extractResponseText, hfU, hfL]
  rw [if_neg h1, if_pos h2, if_pos h2, ht, List.take_left]

/-- What `_extract_response_text` computes on a lowercase-delimited
response. -/
theorem extract_lower_shape (p j s : List Char) (hp : '<' ∉ p) (hj : '<' ∉ j)
    (hs : '<' ∉ s) :
    extractResponseText (p ++ (OPEN_L ++ (j ++ (CLOSE_L ++ s)))) = pyStrip p := by
  have hfU : pyFind (p ++ (OPEN_L ++ (j ++ (CLOSE_L ++ s)))) OPEN_U = -1 := by
    rw [pyFind, findAux_openU_lower _ _ _ hp hj hs]
  have hfL : pyFind (p ++ (OPEN_L ++ (j ++ (CLOSE_L ++ s)))) OPEN_L = (p.length : Int) := by
    rw [pyFind, findAux_openL_at _ _ hp]
  have h1 : ¬((-1 : Int) ≥ 0 ∧ ((p.length : Int)) ≥ 0) := by omega
  have h2 : ¬((-1 : Int) ≥ 0) := by omega
  have h3 : ((p.length : Int)) ≥ 0 := by omega
  have ht : ((p.length : Int)).toNat = p.length := by omega
  simp only [extractResponseText, hfU, hfL]
  rw [if_neg h1, if_neg h2, if_pos h3, if_pos h3, ht, List.take_left]

end GroqClient

section Claims3and4

open Agents PyStr PyJson GroqClient

/-- C3 (amended): the marker matching is not case-insensitive — only the two
exact spellings `<TOOL_CALLS>`/`</TOOL_CALLS>` and `<tool_calls>`/`</tool_calls>`
are recognized.  For those two spellings the claim holds: on any response
`prose ++ marker ++ payload ++ closing ++ suffix` (prose/suffix free of `<`),
`parse` extracts exactly one invocation `{name: "add_task", params: {title: "x"}}`
and the prose is the text strictly before the first marker occurrence,
trimmed. -/
theorem C3_parse_exact_casing_extracts_tool_call (p s : List Char)
    (hp : '<' ∉ p) (hs : '<' ∉ s) :
    (toolsOf (p ++ (OPEN_U ++ (jsonPayload ++ (CLOSE_U ++ s))))
        = .list [addTaskInvocation]
      ∧ extractResponseText (p ++ (OPEN_U ++ (jsonPayload ++ (CLOSE_U ++ s))))
        = pyStrip p)
    ∧ (toolsOf (p ++ (OPEN_L ++ (jsonPayload ++ (CLOSE_L ++ s))))
        = .list [addTaskInvocation]
      ∧ extractResponseText (p ++ (OPEN_L ++ (jsonPayload ++ (CLOSE_L ++ s))))
        = pyStrip p) := by
  have hj : '<' ∉ jsonPayload := by decide
  refine ⟨⟨?_, extract_upper_shape _ _ _ hp hj hs⟩,
          ⟨?_, extract_lower_shape _ _ _ hp hj hs⟩⟩
  · simp only [toolsOf, parse_upper_shape p jsonPayload s hp hj]
    rfl
  · simp only [toolsOf, parse_lower_shape p jsonPayload s hp hj hs]
    rfl

/-- Witness for C3: both hypotheses discharged at the concrete prose
`"Sure thing. "` and empty suffix. -/
theorem C3_witness :
    '<' ∉ "Sure thing. ".data ∧ '<' ∉ ([] : List Char) ∧
      ((toolsOf ("Sure thing. ".data ++ (OPEN_U ++ (jsonPayload ++ (CLOSE_U ++ []))))
          = .list [addTaskInvocation]
        ∧ extractResponseText ("Sure thing. ".data ++ (OPEN_U ++ (jsonPayload ++ (CLOSE_U ++ []))))
          = pyStrip "Sure thing. ".data)
      ∧ (toolsOf ("Sure thing. ".data ++ (OPEN_L ++ (jsonPayload ++ (CLOSE_L ++ []))))
          = .list [addTaskInvocation]
        ∧ extractResponseText ("Sure thing. ".data ++ (OPEN_L ++ (jsonPayload ++ (CLOSE_L ++ []))))
          = pyStrip "Sure thing. ".data)) :=
  ⟨by decide, by decide,
    C3_parse_exact_casing_extracts_tool_call "Sure thing. ".data [] (by decide) (by decide)⟩

/-- C3 counterexample: on a mixed-casing marker (`<Tool_Calls>`), which the
claim says must be tolerated ("any casing … or mixed case"), the parser
extracts no invocation at all and the prose is the entire text, not the
trimmed pre-marker text. -/
theorem C3_counterexample_mixed_case_not_recognized :
    toolsOf mixedResponse = .list []
      ∧ extractResponseText mixedResponse = mixedResponse
      ∧ PyVal.list [] ≠ PyVal.list [addTaskInvocation] := by
  refine ⟨by rfl, by rfl, ?_⟩
  intro h
  simp [addTaskInvocation] at h

/-- C4: the parser degrades to an empty `tools` list instead of raising:
(1) if neither marker spelling occurs in the response, `tools` is `[]`;
(2)–(3) if the markers are present (either recognized spelling) but the
enclosed payload does not parse as JSON (`json.loads` raises, embedded as
`jsonLoads = none`), `tools` is `[]`.  The embedded parser is a total
function, mirroring the `try/except` that keeps every exception away from
the caller. -/
theorem C4_parser_degrades_to_empty_tools :
    (∀ r : List Char, pyContains r OPEN_U = false → pyContains r OPEN_L = false →
        toolsOf r = .list [])
    ∧ (∀ p j s : List Char, '<' ∉ p → '<' ∉ j → '<' ∉ s →
        jsonLoads (pyStrip j) = Option.none →
        toolsOf (p ++ (OPEN_U ++ (j ++ (CLOSE_U ++ s)))) = .list [])
    ∧ (∀ p j s : List Char, '<' ∉ p → '<' ∉ j → '<' ∉ s →
        jsonLoads (pyStrip j) = Option.none →
        toolsOf (p ++ (OPEN_L ++ (j ++ (CLOSE_L ++ s)))) = .list []) := by
  refine ⟨?_, ?_, ?_⟩
  · intro r h1 h2
    simp [toolsOf, parseToolCallsFromResponse, h1, h2]
    rfl
  · intro p j s hp hj hs hload
    simp only [toolsOf, parse_upper_shape p j s hp hj, hload]
    split <;> rfl
  · intro p j s hp hj hs hload
    simp only [toolsOf, parse_lower_shape p j s hp hj hs, hload]
    split <;> rfl

/-- Witness for C4: the no-marker case at `"hello, no markers"` and the
malformed-JSON case at payload `"\x7bnot json"` between uppercase markers. -/
theorem C4_witness :
    (pyContains "hello, no markers".data OPEN_U = false
      ∧ pyContains "hello, no markers".data OPEN_L = false
      ∧ toolsOf "hello, no markers".data = .list [])
    ∧ ('<' ∉ "oops ".data ∧ '<' ∉ "\x7bnot json".data ∧ '<' ∉ ([] : List Char)
      ∧ jsonLoads (pyStrip "\x7bnot json".data) = Option.none
      ∧ toolsOf ("oops ".data ++ (OPEN_U ++ ("\x7bnot json".data ++ (CLOSE_U ++ []))))
          = .list []) :=
  ⟨⟨by rfl, by rfl,
      C4_parser_degrades_to_empty_tools.1 "hello, no markers".data (by rfl) (by rfl)⟩,
    ⟨by decide, by decide, by decide, by rfl,
      C4_parser_degrades_to_empty_tools.2.1 "oops ".data "\x7bnot json".data []
        (by decide) (by decide) (by decide) (by rfl)⟩⟩

end Claims3and4

section Claim2

open Agents Repo Tools

/-- In a store whose ids are pairwise distinct, two members with the same
id are the same row. -/
theorem task_eq_of_same_id {l : List Repo.Task}
    (hp : l.Pairwise (fun a b => a.id ≠ b.id)) :
    ∀ x ∈ l, ∀ y ∈ l, x.id = y.id → x = y := by
  induction l with
  | nil => intro x hx; cases hx
  | cons a as ih =>
    rcases List.pairwise_cons.mp hp with ⟨ha, hp'⟩
    intro x hx y hy hxy
    rcases List.mem_cons.mp hx with rfl | hx'
    · rcases List.mem_cons.mp hy with rfl | hy'
      · rfl
      · exact absurd hxy (ha y hy')
    · rcases List.mem_cons.mp hy with rfl | hy'
      · exact absurd hxy.symm (ha x hx')
      · exact ih hp' x hx' y hy' hxy

/-- A lookup scoped to a non-owner behaves as if the row did not exist. -/
theorem read_none_of_not_owner (db : TaskDB) (t : Repo.Task) (c : String)
    (hmem : t ∈ db.tasks) (hown : t.user_id ≠ c)
    (huniq : db.tasks.Pairwise (fun a b => a.id ≠ b.id)) :
    TaskRepository.read db c t.id = Option.none := by
  unfold TaskRepository.read
  rw [List.head?_eq_none_iff, List.filter_eq_nil_iff]
  intro x hx
  simp only [Bool.and_eq_true, beq_iff_eq, not_and]
  intro hid huser
  have hxt : x = t := task_eq_of_same_id huniq x hx t hmem hid
  exact hown (hxt ▸ huser)

end Claim2

section Claim2Main

open Agents Repo Tools

/-- C2: a `complete_task`/`update_task`/`delete_task` call by an
authenticated (non-empty) caller id `c` that does not own the target task
returns the structured error `task_not_found`, and the store — hence the
task's title, description, completed flag and existence — is unchanged.
Hypotheses: the task is in the store, ids are pairwise distinct (primary
key) and positive (autoincrement). -/
theorem C2_cross_user_access_is_not_found (db : TaskDB) (t : Repo.Task)
    (c : String) (hmem : t ∈ db.tasks) (hown : t.user_id ≠ c) (hc : c ≠ "")
    (hpos : 0 < t.id) (huniq : db.tasks.Pairwise (fun a b => a.id ≠ b.id)) :
    complete_task (.str c) (.int t.id) db
        = .ok (errDict "task_not_found" ("Task " ++ toString t.id ++ " not found"), db)
      ∧ update_task (.str c) (.int t.id) (.str "hacked") PyVal.none db
        = .ok (errDict "task_not_found" ("Task " ++ toString t.id ++ " not found"), db)
      ∧ delete_task (.str c) (.int t.id) PyVal.none db
        = .ok (errDict "task_not_found" ("Task " ++ toString t.id ++ " not found"), db) := by
  have hread : TaskRepository.read db c t.id = Option.none :=
    read_none_of_not_owner db t c hmem hown huniq
  have htr : (PyVal.str c).truthy = true := by simp [PyVal.truthy, hc]
  have hidpos : (0 : Int) < (PyVal.int t.id).asInt := by simpa [PyVal.asInt] using hpos
  have hnz : (PyVal.int t.id).truthy = true := by
    simp [PyVal.truthy]
    omega
  have hlen : (1000 < "hacked".length) = False := by decide
  have hc' : (c = "") = False := eq_false hc
  have hid0 : (t.id = 0) = False := eq_false (by omega)
  refine ⟨?_, ?_, ?_⟩
  · simp [complete_task, htr, PyVal.isStr, PyVal.isInt, PyVal.asStr, PyVal.asInt,
      hread, hpos]
  · simp [update_task, htr, PyVal.isStr, PyVal.isInt, PyVal.isNone, PyVal.asStr,
      PyVal.asInt, hread, hpos, hlen]
  · simp [delete_task, htr, hnz, PyVal.isStr, PyVal.isInt, PyVal.isNone,
      PyVal.truthy, PyVal.asStr, PyVal.asInt, hread, hpos, hc', hid0]

end Claim2Main

section Claim2Witness

open Agents Repo Tools

/-- Witness for C2: every hypothesis discharged at the concrete store
`aliceDB` with caller `bob`. -/
theorem C2_witness :
    aliceTask ∈ aliceDB.tasks ∧ aliceTask.user_id ≠ "bob" ∧ ("bob" : String) ≠ ""
      ∧ 0 < aliceTask.id
      ∧ aliceDB.tasks.Pairwise (fun a b => a.id ≠ b.id)
      ∧ (complete_task (.str "bob") (.int aliceTask.id) aliceDB
            = .ok (errDict "task_not_found"
                ("Task " ++ toString aliceTask.id ++ " not found"), aliceDB)
          ∧ update_task (.str "bob") (.int aliceTask.id) (.str "hacked") PyVal.none aliceDB
            = .ok (errDict "task_not_found"
                ("Task " ++ toString aliceTask.id ++ " not found"), aliceDB)
          ∧ delete_task (.str "bob") (.int aliceTask.id) PyVal.none aliceDB
            = .ok (errDict "task_not_found"
                ("Task " ++ toString aliceTask.id ++ " not found"), aliceDB)) :=
  ⟨by decide, by decide, by decide, by decide, by simp [aliceDB],
    C2_cross_user_access_is_not_found aliceDB aliceTask "bob" (by decide) (by decide)
      (by decide) (by decide) (by simp [aliceDB])⟩

end Claim2Witness

section Claim1

open Agents Repo

/-- C1 (code bug): for a conversation holding 150 turns and no explicit
`message_limit`, the context pipeline returns 100 turns — the **oldest**
100 — and the true latest turn is not last (the last item is turn index
99).  `MessageRepository.list_by_conversation` defaults to `limit=100`
applied to the ascending query, so `build_context` (whose own docstring
says it loads *all* messages) hands the converter only the oldest 100;
the converter's `> 100` check then never fires, and the newest 50 turns
are dropped — contradicting the documented "keep the most recent 30"
policy. -/
theorem C1_code_bug_oldest_100_returned :
    (buildContextHistory msgs150 7 "u1" Option.none).length = 100
      ∧ (buildContextHistory msgs150 7 "u1" Option.none).getLast?
          = some (createMessageItem "assistant" "m99")
      ∧ (100 : Nat) ≠ 30 := by
  refine ⟨by decide, by rfl, by decide⟩

end Claim1

section Claim6

open IdMapper

/-- C6 (code bug): mapping the same `provider_id` string under two
different provider names on one mapper instance yields the **same**
synthetic id — the forward map is keyed on `provider_id` alone, so
`provider_name` never participates in the lookup.  This contradicts the
function's own docstring example (`"msg_123"` from Gemini → 1001,
`"msg_123"` from Claude → 1002): the second call returns 1001 again and
records no second audit entry. -/
theorem C6_code_bug_cross_provider_ids_merged :
    (IDMapper.fresh.map_provider_id "msg_123" "Gemini").1 = 1001
      ∧ ((IDMapper.fresh.map_provider_id "msg_123" "Gemini").2.map_provider_id
          "msg_123" "Claude").1 = 1001
      ∧ ((IDMapper.fresh.map_provider_id "msg_123" "Gemini").2.map_provider_id
          "msg_123" "Claude").2.audit_map = [(1001, "Gemini_msg_123")] := by
  refine ⟨by rfl, by rfl, by rfl⟩

end Claim6

section Claims789

open Agents Repo Tools Runner

/-- C7 (amended): `_invoke_tool` injects the authenticated `userId` into
the params only **when the key is absent**; a model-supplied `user_id`
is kept verbatim and passed to the registry.  When absent, the params
actually passed carry the authenticated caller's id. -/
theorem C7_user_id_injected_only_when_absent (u : String)
    (kvs : List (String × PyVal)) :
    (dictHasKey kvs "user_id" = false →
      injectUserId u kvs = kvs ++ [("user_id", .str u)]
        ∧ dictFind (injectUserId u kvs) "user_id" = some (.str u))
    ∧ (dictHasKey kvs "user_id" = true → injectUserId u kvs = kvs) := by
  constructor
  · intro h
    have heq : injectUserId u kvs = kvs ++ [("user_id", .str u)] := by
      simp [injectUserId, h]
    refine ⟨heq, ?_⟩
    rw [heq]
    have : ∀ l : List (String × PyVal), dictHasKey l "user_id" = false →
        dictFind (l ++ [("user_id", PyVal.str u)]) "user_id" = some (.str u) := by
      intro l
      induction l with
      | nil => intro _; simp [dictFind]
      | cons kv rest ih =>
        obtain ⟨k1, v1⟩ := kv
        intro hl
        simp only [dictHasKey, dictFind] at hl
        by_cases hk : k1 = "user_id"
        · simp [hk] at hl
        · simp only [List.cons_append, dictFind, hk, if_false]
          apply ih
          simp only [dictHasKey]
          simpa [hk] using hl
    exact this kvs h
  · intro h
    simp [injectUserId, h]

/-- Witness for C7: at concrete params without a `user_id` key, the
injected dict carries the authenticated id. -/
theorem C7_witness :
    dictHasKey [("title", PyVal.str "x")] "user_id" = false ∧
      (injectUserId "alice" [("title", PyVal.str "x")]
          = [("title", PyVal.str "x"), ("user_id", PyVal.str "alice")]
        ∧ dictFind (injectUserId "alice" [("title", PyVal.str "x")]) "user_id"
          = some (.str "alice")) :=
  ⟨by rfl, (C7_user_id_injected_only_when_absent "alice"
    [("title", PyVal.str "x")]).1 (by rfl)⟩

/-- C7 counterexample: with authenticated user `alice` and model-supplied
params carrying `user_id: "mallory"`, the params passed to the registry
keep `mallory`, and the side effect (the created task) is owned by
`mallory` — the authenticated caller's id is **not** always carried. -/
theorem C7_counterexample_model_supplied_user_id_trusted :
    injectUserId "alice" [("user_id", .str "mallory"), ("title", .str "x")]
        = [("user_id", .str "mallory"), ("title", .str "x")]
      ∧ (invokeTool "alice" (.str "add_task")
            (.dict [("user_id", .str "mallory"), ("title", .str "x")])
            ⟨[], 1⟩).2.tasks
          = [{ id := 1, user_id := "mallory", title := "x",
               description := Option.none, completed := false, created_at := 1 }]
      ∧ "mallory" ≠ "alice" := by
  refine ⟨by rfl, by rfl, by decide⟩

/-- C8: when the primary LLM call does not return within the timeout
(the `asyncio.wait_for` wrapper raises `asyncio.TimeoutError`), `run`
terminates with the timeout error kind (the timeout branch's error
string, parameterized by `TIMEOUT_SECONDS`, default 30) and a non-empty
user-facing response; `run` consumes a single loop outcome, so the call
is not retried. -/
theorem C8_timeout_terminal (executed : List PyVal) (db0 store : TaskDB) :
    (run db0 true (TIMEOUT_SECONDS Option.none) (.timedOut executed store)).1.error
        = some "Agent execution timed out after 30s"
      ∧ (run db0 true (TIMEOUT_SECONDS Option.none) (.timedOut executed store)).1.response
          = "I'm taking too long to think. Please try again."
      ∧ (run db0 true (TIMEOUT_SECONDS Option.none) (.timedOut executed store)).1.response
          ≠ ""
      ∧ TIMEOUT_SECONDS Option.none = 30
      ∧ (run db0 true (TIMEOUT_SECONDS Option.none)
          (.timedOut executed store)).1.success = false := by
  refine ⟨by rfl, by rfl, ?_, by rfl, by rfl⟩
  intro h
  rw [show (run db0 true (TIMEOUT_SECONDS Option.none)
      (.timedOut executed store)).1.response
    = "I'm taking too long to think. Please try again." from rfl] at h
  exact absurd h (by decide)

/-- C9: every terminal-failure `AgentResponse` (initialization failure,
timeout, unexpected exception) carries `tool_calls = []`, even when tool
invocations had already executed — the loop's `tool_calls_made` is
discarded — while the store mutations those tools committed persist. -/
theorem C9_terminal_failures_drop_tool_call_audit (timeout : Int) (msg : String)
    (executed : List PyVal) (db0 store : TaskDB) :
    (∀ o : LoopOutcome, (run db0 false timeout o).1.tool_calls = [])
      ∧ (run db0 true timeout (.timedOut executed store)).1.tool_calls = []
      ∧ (run db0 true timeout (.timedOut executed store)).2 = store
      ∧ (run db0 true timeout (.raised msg executed store)).1.tool_calls = []
      ∧ (run db0 true timeout (.raised msg executed store)).2 = store := by
  exact ⟨fun o => by rfl, by rfl, by rfl, by rfl, by rfl⟩

end Claims789

section Claim5

open Agents Repo Tools Runner

/-- C5: the dispatcher runs the parsed invocations sequentially in model
order and records exactly one outcome per named invocation, in that
order (the outcome list's `tool` fields are the specs' `name` fields,
positionally); and in the concrete two-invocation scenario where the
first fails validation and the second succeeds, both outcomes are
recorded (`success = [false, true]`, errors `[invalid_title, —]`) and
the second tool's side effect — the created task — is observable in the
final store. -/
theorem C5_dispatch_order_and_partial_failure :
    (∀ (user : String) (db : TaskDB) (specs : List PyVal),
      (∀ spec ∈ specs, (PyVal.get spec "name" .none).truthy = true) →
        (dispatchTools user db specs).1.map (fun o => PyVal.get o "tool" .none)
            = specs.map (fun spec => PyVal.get spec "name" .none)
          ∧ (dispatchTools user db specs).1.length = specs.length)
    ∧ ((dispatchTools "alice" ⟨[], 1⟩ [specFailing, specSucceeding]).1.map
          (fun o => PyVal.get o "success" .none) = [.bool false, .bool true]
      ∧ (dispatchTools "alice" ⟨[], 1⟩ [specFailing, specSucceeding]).1.map
          (fun o => resultErrorCode (PyVal.get o "result" .none))
          = [some (.str "invalid_title"), Option.none]
      ∧ (dispatchTools "alice" ⟨[], 1⟩ [specFailing, specSucceeding]).2.2.tasks
          = [{ id := 1, user_id := "alice", title := "buy milk",
               description := Option.none, completed := false, created_at := 1 }]
      ∧ (dispatchTools "alice" ⟨[], 1⟩ [specFailing, specSucceeding]).2.1.length = 2) := by
  constructor
  · intro user db specs h
    have hmap : ∀ (db : TaskDB) (specs : List PyVal),
        (∀ spec ∈ specs, (PyVal.get spec "name" .none).truthy = true) →
        (dispatchTools user db specs).1.map (fun o => PyVal.get o "tool" .none)
          = specs.map (fun spec => PyVal.get spec "name" .none) := by
      intro db specs
      induction specs generalizing db with
      | nil => intro _; simp [dispatchTools]
      | cons spec rest ih =>
        intro hall
        have hn : (PyVal.get spec "name" .none).truthy = true :=
          hall spec (List.mem_cons_self _ _)
        simp only [dispatchTools, hn, Bool.not_true, Bool.false_eq_true, if_false,
          List.map_cons, List.cons.injEq]
        refine ⟨by simp [PyVal.get, dictFind], ?_⟩
        exact ih _ (fun s hs => hall s (List.mem_cons_of_mem _ hs))
    refine ⟨hmap db specs h, ?_⟩
    have := congrArg List.length (hmap db specs h)
    simpa using this
  · exact ⟨by rfl, by rfl, by rfl, by rfl⟩

end Claim5

section Claim5Witness

open Agents Repo Tools Runner

/-- Witness for C5: the order/length statement applied at the concrete
two-invocation scenario, its hypothesis (every spec names a tool)
discharged there. -/
theorem C5_witness :
    (∀ spec ∈ [specFailing, specSucceeding],
        (PyVal.get spec "name" .none).truthy = true)
      ∧ ((dispatchTools "alice" ⟨[], 1⟩ [specFailing, specSucceeding]).1.map
            (fun o => PyVal.get o "tool" .none)
          = [specFailing, specSucceeding].map (fun spec => PyVal.get spec "name" .none)
        ∧ (dispatchTools "alice" ⟨[], 1⟩ [specFailing, specSucceeding]).1.length
          = [specFailing, specSucceeding].length) := by
  have hall : ∀ spec ∈ [specFailing, specSucceeding],
      (PyVal.get spec "name" .none).truthy = true := by
    intro s hs
    rcases List.mem_cons.mp hs with rfl | hs2
    · rfl
    · rcases List.mem_cons.mp hs2 with rfl | h3
      · rfl
      · cases h3
  exact ⟨hall,
    C5_dispatch_order_and_partial_failure.1 "alice" ⟨[], 1⟩
      [specFailing, specSucceeding] hall⟩

end Claim5Witness

section Claim10

open Agents Repo Tools

/-- C10: `add_task` accepts a title of length up to exactly 1000
characters (creating exactly one task row owned by the caller), rejects a
longer title with `title_too_long`, rejects an empty or non-string title
with `invalid_title`, and rejects a string description longer than 1000
characters with `description_too_long` — and in every rejection case the
store is unchanged (no task row is created). -/
theorem C10_add_task_validation (db : TaskDB) (u : String) (hu : u ≠ "") :
    (∀ s : String, s ≠ "" → s.length ≤ 1000 →
      add_task (.str u) (.str s) PyVal.none db
        = .ok (.dict [("task_id", .int db.nextId), ("status", .str "created"),
            ("title", .str s)],
          ⟨db.tasks ++ [⟨db.nextId, u, s, Option.none, false, db.nextId.toNat⟩],
            db.nextId + 1⟩))
    ∧ (∀ s : String, 1000 < s.length →
      add_task (.str u) (.str s) PyVal.none db
        = .ok (errDict "title_too_long" "Title must be 1000 characters or less", db))
    ∧ (∀ v : PyVal, v.truthy = false ∨ v.isStr = false →
      add_task (.str u) v PyVal.none db
        = .ok (errDict "invalid_title" "Title is required and must be a string", db))
    ∧ (∀ s d : String, s ≠ "" → s.length ≤ 1000 → 1000 < d.length →
      add_task (.str u) (.str s) (.str d) db
        = .ok (errDict "description_too_long"
            "Description must be 1000 characters or less", db)) := by
  have hutr : (PyVal.str u).truthy = true := by simp [PyVal.truthy, hu]
  have huis : (PyVal.str u).isStr = true := rfl
  have hnone : PyVal.none.truthy = false := rfl
  refine ⟨?_, ?_, ?_, ?_⟩
  · intro s hs hlen
    have hstr : (PyVal.str s).truthy = true := by simp [PyVal.truthy, hs]
    have h1 : (1000 < s.length) = False := eq_false (by omega)
    simp [add_task, hutr, huis, hstr, hnone, h1, PyVal.isStr, PyVal.asStr,
      TaskRepository.create, descColumn]
  · intro s hlen
    have hs : s ≠ "" := by
      intro h
      subst h
      simp at hlen
    have hstr : (PyVal.str s).truthy = true := by simp [PyVal.truthy, hs]
    have h1 : (1000 < s.length) = True := eq_true (by omega)
    simp [add_task, hutr, huis, hstr, h1, PyVal.isStr, PyVal.asStr]
  · intro v hv
    have hcond : (v.truthy && v.isStr) = false := by
      rcases hv with h | h <;> simp [h]
    simp [add_task, hutr, huis, hcond]
  · intro s d hs hslen hdlen
    have hstr : (PyVal.str s).truthy = true := by simp [PyVal.truthy, hs]
    have hd : d ≠ "" := by
      intro h
      subst h
      simp at hdlen
    have hdtr : (PyVal.str d).truthy = true := by simp [PyVal.truthy, hd]
    have h1 : (1000 < s.length) = False := eq_false (by omega)
    have h2 : (1000 < d.length) = True := eq_true (by omega)
    simp [add_task, hutr, huis, hstr, hdtr, h1, h2, PyVal.isStr, PyVal.asStr,
      pyLen]

end Claim10

section Claim10Witness

open Agents Repo Tools

/-- Witness for C10: the 1000-character boundary exercised concretely —
a 1000-character title is accepted (one row created), a 1001-character
title is rejected with `title_too_long` and the store unchanged. -/
theorem C10_witness :
    ("u1" : String) ≠ ""
      ∧ (title1000 ≠ "" ∧ title1000.length ≤ 1000
        ∧ add_task (.str "u1") (.str title1000) PyVal.none ⟨[], 1⟩
          = .ok (.dict [("task_id", .int 1), ("status", .str "created"),
              ("title", .str title1000)],
            ⟨[⟨1, "u1", title1000, Option.none, false, 1⟩], 2⟩))
      ∧ (1000 < title1001.length
        ∧ add_task (.str "u1") (.str title1001) PyVal.none ⟨[], 1⟩
          = .ok (errDict "title_too_long" "Title must be 1000 characters or less",
            ⟨[], 1⟩)) := by
  have h0 : ("u1" : String) ≠ "" := by decide
  have h1 : title1000 ≠ "" := by decide
  have h2 : title1000.length ≤ 1000 := by decide
  have h3 : 1000 < title1001.length := by decide
  refine ⟨h0, ⟨h1, h2, ?_⟩, h3, ?_⟩
  · exact (C10_add_task_validation ⟨[], 1⟩ "u1" h0).1 title1000 h1 h2
  · exact (C10_add_task_validation ⟨[], 1⟩ "u1" h0).2.1 title1001 h3

end Claim10Witness
